import Mathlib

/-!
Verification of `GridBlueprint/Resources/grid_generator.py`, a CLI tool that
interactively collects grid dimensions and a filename and writes a
semicolon-delimited CSV grid of `"0"` cells.

The embedding below mirrors the Python source:

* `create_grid_csv` becomes `createGridCsv`: the pure content it writes
  (`fileContent`), the target filename (`targetName`, the `.csv`-suffix
  logic), and its error path (the `try/except` around the file write is
  modelled by an `ioError : Option String` parameter standing for the
  outcome of `open`/`write`: `none` = success, `some e` = the raised
  exception's message).
* `csv.writer(..., delimiter=';')` with the default `excel` dialect joins
  the fields of a row with `;` and terminates each row with `"\r\n"`
  (`lineterminator` of the default dialect; `newline=''` on `open` means no
  translation happens), and with all fields equal to `"0"` the
  `QUOTE_MINIMAL` quoting rule never fires, so a row serializes to exactly
  the joined fields plus `"\r\n"` (`joinFields`, `serializeRows`).
* `get_user_input` becomes `getUserInput`, a function over a script of
  input events (`Inp.line s` = a line returned by `input()`, `Inp.interrupt`
  = a `KeyboardInterrupt` raised while waiting at a prompt; the surrounding
  `try/except KeyboardInterrupt` maps `interrupt` to the cancelled
  sentinel).  The two `while True` dimension loops become `getDimension`.
* Python builtins are embedded over characters: `int()` as `pyint`
  (strip, optional sign, digits with single underscores between digits),
  `str.lower()` as `pyLower` (ASCII case mapping; no character outside
  ASCII has `y` as its lowercase form, so comparisons against `'y'` agree
  with Python), `str.strip()` as `pyStrip`, `str.endswith` as
  `pyEndswith`.  All inputs exercised by the program's prompts are ASCII.
* `main` becomes `mainRun`, returning the file-write effect
  (`some (name, content)`) or `none` when nothing is written.
-/

/-- Whitespace characters removed by Python `str.strip()` (the ASCII ones;
prompt answers and typed numbers are ASCII). -/
def isPySpace (c : Char) : Bool :=
  c = ' ' || c = '\t' || c = '\n' || c = '\x0b' || c = '\x0c' || c = '\r'

/-- Python `str.strip()`: drop leading and trailing whitespace. -/
def pyStrip (s : String) : String :=
  ⟨((s.data.dropWhile isPySpace).reverse.dropWhile isPySpace).reverse⟩

/-- Python `str.lower()` restricted to ASCII (sufficient for comparison
against `'y'`: no non-ASCII character lowercases to `y`). -/
def pyLower (s : String) : String :=
  ⟨s.data.map Char.toLower⟩

/-- Python `str.endswith(suf)`. -/
def pyEndswith (s suf : String) : Bool :=
  List.isSuffixOf suf.data s.data

/-- Valid tail of a base-10 integer literal for Python `int()`: digits, with
each underscore followed by a digit (so no trailing or doubled underscore). -/
def validTail : List Char → Bool
  | [] => true
  | c :: rest =>
    if c = '_' then
      (match rest with
       | [] => false
       | d :: _ => d.isDigit) && validTail rest
    else c.isDigit && validTail rest

/-- A nonempty digit string with Python's underscore rules: starts with a
digit, and every underscore sits between digits. -/
def digitsOk : List Char → Bool
  | [] => false
  | c :: rest => c.isDigit && validTail rest

/-- Numeric value of a digit string, underscores skipped. -/
def pyintValue (l : List Char) : Nat :=
  (l.filter (fun c => c ≠ '_')).foldl (fun acc c => acc * 10 + (c.toNat - '0'.toNat)) 0

/-- Python `int(s)` for base 10: strip whitespace, optional sign, digits with
single underscores between digits; `none` models the `ValueError` branch. -/
def pyint (s : String) : Option Int :=
  match (pyStrip s).data with
  | '+' :: rest => if digitsOk rest then some (pyintValue rest) else none
  | '-' :: rest => if digitsOk rest then some (-(pyintValue rest : Int)) else none
  | rest => if digitsOk rest then some (pyintValue rest) else none

/-- `grid_generator.py` lines 37-39: append `.csv` when the filename does not
already end in it. -/
def targetName (filename : String) : String :=
  if pyEndswith filename ".csv" then filename else filename ++ ".csv"

/-- `grid_generator.py` lines 42-47: `grid_data`, `height` rows of `width`
copies of the string `'0'` (Python `['0'] * width` and `range(height)` give
the empty list for non-positive arguments, as `Int.toNat` does). -/
def gridData (width height : Int) : List (List String) :=
  List.replicate height.toNat (List.replicate width.toNat "0")

/-- One CSV row as `csv.writer` with `delimiter=';'` emits it, before the
line terminator: the fields joined by `;` (quoting never fires on `"0"`). -/
def joinFields : List String → String
  | [] => ""
  | f :: fs =>
    match fs with
    | [] => f
    | _ :: _ => f ++ ";" ++ joinFields fs

/-- The writer's output for a list of rows: each row's joined fields followed
by the default dialect's `"\r\n"` line terminator. -/
def serializeRows : List (List String) → String
  | [] => ""
  | r :: rs => joinFields r ++ "\r\n" ++ serializeRows rs

/-- The full text `create_grid_csv` writes for the given dimensions. -/
def fileContent (width height : Int) : String :=
  serializeRows (gridData width height)

/-- Byte size of the written file (`os.path.getsize`): UTF-8 length of the
content. -/
def fileByteSize (width height : Int) : Nat :=
  ((fileContent width height).data.map Char.utf8Size).sum

/-- Result of `create_grid_csv`: the returned boolean, the file written (name
and content; `none` on the error path), and the lines it prints. -/
structure CsvResult where
  success : Bool
  written : Option (String × String)
  output : List String
deriving DecidableEq

/-- `grid_generator.py` lines 23-62, `create_grid_csv`.  `ioError` is the
outcome of the `open`/`write` inside the `try`: `some e` means the write
raised an exception with message `e`, which the `except` catches, printing
`Error creating {filename}: {e}` and returning `False`. -/
def createGridCsv (width height : Int) (filename : String) (ioError : Option String) :
    CsvResult :=
  let fname := targetName filename
  match ioError with
  | some e =>
    { success := false
      written := none
      output := ["Error creating " ++ fname ++ ": " ++ e] }
  | none =>
    { success := true
      written := some (fname, fileContent width height)
      output := ["Successfully created " ++ fname ++ " (" ++ toString width ++ "x"
                   ++ toString height ++ " grid)",
                 "File size: " ++ toString (fileByteSize width height) ++ " bytes"] }

/-- An event at a prompt: a line returned by `input()`, or a
`KeyboardInterrupt` raised while waiting. -/
inductive Inp where
  | line (s : String)
  | interrupt
deriving DecidableEq

/-- Outcome of one dimension-acquisition loop. -/
inductive DimOutcome where
  | ok (v : Int) (rest : List Inp)
  | interrupted
  | exhausted
deriving DecidableEq

/-- `grid_generator.py` lines 80-92 (and identically 95-107): the
`while True` loop reading a dimension.  Non-integer input re-prompts
(`ValueError` branch), a non-positive value re-prompts, a value over 1000
asks `Continue? (y/n)` and re-prompts unless the answer lowercases to `y`.
`exhausted` models the script running out (a real `input()` would block or
raise `EOFError`); `interrupted` propagates a `KeyboardInterrupt` to the
handler in `get_user_input`. -/
def getDimension : List Inp → DimOutcome
  | [] => .exhausted
  | .interrupt :: _ => .interrupted
  | .line s :: rest =>
    match pyint s with
    | none => getDimension rest
    | some v =>
      if v ≤ 0 then getDimension rest
      else if 1000 < v then
        match rest with
        | [] => .exhausted
        | .interrupt :: _ => .interrupted
        | .line c :: rest2 =>
          if pyLower c = "y" then .ok v rest2 else getDimension rest2
      else .ok v rest

/-- `grid_generator.py` line 110: the suggested default filename. -/
def defaultFilename (width height : Int) : String :=
  "grid_" ++ toString width ++ "x" ++ toString height ++ ".csv"

/-- `grid_generator.py` lines 112-115: the typed filename is stripped and,
when empty, replaced by the default. -/
def chooseFilename (width height : Int) (resp : String) : String :=
  let f := pyStrip resp
  if f = "" then defaultFilename width height else f

/-- Result of `get_user_input`: the collected values, the cancelled sentinel
`(None, None, None)`, or an exhausted input script. -/
inductive PromptResult where
  | values (width height : Int) (filename : String)
  | cancelled
  | exhausted
deriving DecidableEq

/-- `grid_generator.py` lines 65-139, `get_user_input`: width loop, height
loop, filename prompt, final `Create this grid file? (y/n)` confirmation.
Any answer not lowercasing to `y` — and a `KeyboardInterrupt` at any prompt,
caught by the function's `except KeyboardInterrupt` — yields the sentinel. -/
def getUserInput (script : List Inp) : PromptResult :=
  match getDimension script with
  | .exhausted => .exhausted
  | .interrupted => .cancelled
  | .ok w r1 =>
    match getDimension r1 with
    | .exhausted => .exhausted
    | .interrupted => .cancelled
    | .ok h r2 =>
      match r2 with
      | [] => .exhausted
      | .interrupt :: _ => .cancelled
      | .line fIn :: r3 =>
        match r3 with
        | [] => .exhausted
        | .interrupt :: _ => .cancelled
        | .line c :: _ =>
          if pyLower c = "y" then .values w h (chooseFilename w h fIn)
          else .cancelled

/-- `grid_generator.py` lines 142-157, `main`: run the prompt; invoke the
writer only when values (not the sentinel) come back.  The result is the
file-write effect: `none` when no file is created (cancellation, interrupt,
or exhausted input, which in Python raises `EOFError` into `main`'s
catch-all). -/
def mainRun (script : List Inp) (ioError : Option String) : Option (String × String) :=
  match getUserInput script with
  | .values w h f => (createGridCsv w h f ioError).written
  | _ => none

/-- `grid_generator.py` lines 117-118: `total_cells * 2`, the estimate shown
in the summary. -/
def estimatedSize (width height : Int) : Int :=
  width * height * 2

/-- Prepend a character to the first chunk of a split (helper for the
parsers used to state what the written file looks like). -/
def pushHead (c : Char) : List (List Char) → List (List Char)
  | [] => [[c]]
  | h :: t => (c :: h) :: t

/-- Split a character list on a separator character (fields of a line). -/
def splitSep (sep : Char) : List Char → List (List Char)
  | [] => [[]]
  | c :: cs => if c = sep then [] :: splitSep sep cs else pushHead c (splitSep sep cs)

/-- Split a character list on the two-character terminator `"\r\n"`. -/
def crlfSplit : List Char → List (List Char)
  | [] => [[]]
  | [c] => [[c]]
  | c :: d :: cs =>
    if c = '\r' ∧ d = '\n' then [] :: crlfSplit cs
    else pushHead c (crlfSplit (d :: cs))

/-- The lines of a `"\r\n"`-terminated text: chunks between terminators,
without the empty chunk after the final terminator. -/
def fileLines (s : String) : List (List Char) :=
  (crlfSplit s.data).dropLast

/-! ### Helper lemmas about the serialized grid -/

theorem joinFields_replicate_succ (n : Nat) :
    joinFields (List.replicate (n + 2) "0")
      = "0" ++ ";" ++ joinFields (List.replicate (n + 1) "0") := by
  simp [List.replicate_succ, joinFields]

theorem joinFields_replicate_data (n : Nat) :
    (joinFields (List.replicate (n + 2) "0")).data
      = '0' :: ';' :: (joinFields (List.replicate (n + 1) "0")).data := by
  rw [joinFields_replicate_succ]
  simp

theorem row_chars (n : Nat) :
    ∀ c ∈ (joinFields (List.replicate (n + 1) "0")).data, c = '0' ∨ c = ';' := by
  induction n with
  | zero => intro c hc; simp [joinFields] at hc; simp [hc]
  | succ m ih =>
    intro c hc
    rw [joinFields_replicate_data] at hc
    simp only [List.mem_cons] at hc
    rcases hc with h | h | h
    · exact Or.inl h
    · exact Or.inr h
    · exact ih c h

theorem splitSep_cons_sep (sep : Char) (cs : List Char) :
    splitSep sep (sep :: cs) = [] :: splitSep sep cs := by
  simp [splitSep]

theorem splitSep_cons_ne (sep c : Char) (h : ¬ c = sep) (cs : List Char) :
    splitSep sep (c :: cs) = pushHead c (splitSep sep cs) := by
  simp [splitSep, h]

theorem splitSep_row (n : Nat) :
    splitSep ';' (joinFields (List.replicate (n + 1) "0")).data
      = List.replicate (n + 1) (['0'] : List Char) := by
  induction n with
  | zero => decide
  | succ m ih =>
    rw [joinFields_replicate_data, splitSep_cons_ne ';' '0' (by decide),
      splitSep_cons_sep, ih]
    simp [pushHead, List.replicate_succ]

theorem crlfSplit_boundary (ys : List Char) :
    crlfSplit ('\r' :: '\n' :: ys) = [] :: crlfSplit ys := by
  simp [crlfSplit]

theorem crlfSplit_append (xs ys : List Char)
    (hx : ∀ c ∈ xs, ¬ c = '\r' ∧ ¬ c = '\n') :
    crlfSplit (xs ++ '\r' :: '\n' :: ys) = xs :: crlfSplit ys := by
  induction xs with
  | nil => exact crlfSplit_boundary ys
  | cons c xs ih =>
    have hc : ¬ c = '\r' ∧ ¬ c = '\n' := hx c (List.mem_cons_self c xs)
    have hrest : ∀ d ∈ xs, ¬ d = '\r' ∧ ¬ d = '\n' :=
      fun d hd => hx d (List.mem_cons_of_mem c hd)
    cases xs with
    | nil =>
      simp only [List.nil_append, List.cons_append]
      show crlfSplit (c :: '\r' :: '\n' :: ys) = [c] :: crlfSplit ys
      simp only [crlfSplit]
      rw [if_neg (by simp [hc.1])]
      simp [pushHead]
    | cons d xs' =>
      simp only [List.cons_append] at ih ⊢
      simp only [crlfSplit]
      rw [if_neg (by simp [hc.1]), ih hrest]
      simp [pushHead]

theorem serializeRows_replicate_data (n m : Nat) :
    (serializeRows (List.replicate (m + 1) (List.replicate (n + 1) "0"))).data
      = (joinFields (List.replicate (n + 1) "0")).data ++ '\r' :: '\n' ::
        (serializeRows (List.replicate m (List.replicate (n + 1) "0"))).data := by
  rw [List.replicate_succ]
  simp [serializeRows]

theorem crlfSplit_content (n m : Nat) :
    crlfSplit (serializeRows (List.replicate m (List.replicate (n + 1) "0"))).data
      = List.replicate m (joinFields (List.replicate (n + 1) "0")).data ++ [[]] := by
  induction m with
  | zero => rfl
  | succ k ih =>
    rw [serializeRows_replicate_data,
      crlfSplit_append _ _ (fun c hc => by rcases row_chars n c hc with h | h <;> simp [h]),
      ih]
    simp [List.replicate_succ]

theorem row_bytes (n : Nat) :
    ((joinFields (List.replicate (n + 1) "0")).data.map Char.utf8Size).sum = 2 * n + 1 := by
  induction n with
  | zero => decide
  | succ m ih =>
    rw [joinFields_replicate_data]
    simp only [List.map_cons, List.sum_cons, ih]
    have h0 : Char.utf8Size '0' = 1 := by decide
    have h1 : Char.utf8Size ';' = 1 := by decide
    rw [h0, h1]
    omega

theorem content_bytes (n m : Nat) :
    ((serializeRows (List.replicate m (List.replicate (n + 1) "0"))).data.map
      Char.utf8Size).sum = m * (2 * n + 3) := by
  induction m with
  | zero => rw [Nat.zero_mul]; rfl
  | succ k ih =>
    rw [serializeRows_replicate_data]
    simp only [List.map_append, List.map_cons, List.sum_append, List.sum_cons, ih, row_bytes]
    have h0 : Char.utf8Size '\r' = 1 := by decide
    have h1 : Char.utf8Size '\n' = 1 := by decide
    rw [h0, h1]
    ring

theorem fileByteSize_formula (width height : Int) (hw : 0 < width) :
    fileByteSize width height = height.toNat * (2 * width.toNat + 1) := by
  have h1 : 0 < width.toNat := by omega
  obtain ⟨n, hn⟩ : ∃ n, width.toNat = n + 1 := ⟨width.toNat - 1, by omega⟩
  unfold fileByteSize fileContent gridData
  rw [hn, content_bytes]
  ring

/-! ### Step lemmas for the dimension-acquisition loop -/

theorem gd_parse_fail (s : String) (rest : List Inp) (h : pyint s = none) :
    getDimension (Inp.line s :: rest) = getDimension rest := by
  simp [getDimension, h]

theorem gd_nonpos (s : String) (v : Int) (rest : List Inp)
    (h : pyint s = some v) (hv : v ≤ 0) :
    getDimension (Inp.line s :: rest) = getDimension rest := by
  simp only [getDimension, h]
  rw [if_pos hv]

theorem gd_accept_small (s : String) (v : Int) (rest : List Inp)
    (h : pyint s = some v) (h0 : 0 < v) (h1 : v ≤ 1000) :
    getDimension (Inp.line s :: rest) = DimOutcome.ok v rest := by
  simp only [getDimension, h]
  rw [if_neg (by omega), if_neg (by omega)]

theorem gd_large_yes (s : String) (v : Int) (c : String) (rest : List Inp)
    (h : pyint s = some v) (h1 : 1000 < v) (hc : pyLower c = "y") :
    getDimension (Inp.line s :: Inp.line c :: rest) = DimOutcome.ok v rest := by
  simp only [getDimension, h]
  rw [if_neg (by omega), if_pos h1, if_pos hc]

theorem gd_large_no (s : String) (v : Int) (c : String) (rest : List Inp)
    (h : pyint s = some v) (h1 : 1000 < v) (hc : ¬ pyLower c = "y") :
    getDimension (Inp.line s :: Inp.line c :: rest) = getDimension rest := by
  simp only [getDimension, h]
  rw [if_neg (by omega), if_pos h1, if_neg hc]

/-- Invariant of an accepted dimension: it is positive, it consumed at least
one input, a value over 1000 was accepted only right after a confirmation
lowercasing to `y`, and a value up to 1000 was accepted directly from its
own input line. -/
theorem gd_ok_inv :
    ∀ (script : List Inp) (v : Int) (rem : List Inp),
      getDimension script = DimOutcome.ok v rem →
      0 < v ∧ rem.length < script.length ∧
      (1000 < v → ∃ s c, pyint s = some v ∧ pyLower c = "y" ∧
        (Inp.line s :: Inp.line c :: rem) <:+ script) ∧
      (v ≤ 1000 → ∃ s, pyint s = some v ∧ (Inp.line s :: rem) <:+ script) := by
  have main : ∀ (n : Nat) (script : List Inp), script.length ≤ n →
      ∀ (v : Int) (rem : List Inp),
      getDimension script = DimOutcome.ok v rem →
      0 < v ∧ rem.length < script.length ∧
      (1000 < v → ∃ s c, pyint s = some v ∧ pyLower c = "y" ∧
        (Inp.line s :: Inp.line c :: rem) <:+ script) ∧
      (v ≤ 1000 → ∃ s, pyint s = some v ∧ (Inp.line s :: rem) <:+ script) := by
    intro n
    induction n with
    | zero =>
      intro script hlen v rem heq
      have : script = [] := List.eq_nil_of_length_eq_zero (Nat.le_zero.mp hlen)
      subst this
      simp [getDimension] at heq
    | succ n ih =>
      intro script hlen v rem heq
      match script with
      | [] => simp [getDimension] at heq
      | Inp.interrupt :: tail => simp [getDimension] at heq
      | Inp.line s :: tail =>
        have htail : tail.length ≤ n := by simp at hlen; omega
        cases hp : pyint s with
        | none =>
          rw [gd_parse_fail s tail hp] at heq
          obtain ⟨h1, h2, h3, h4⟩ := ih tail htail v rem heq
          refine ⟨h1, by simp; omega, fun hv => ?_, fun hv => ?_⟩
          · obtain ⟨s', c', hs', hc', hsuf⟩ := h3 hv
            exact ⟨s', c', hs', hc', hsuf.trans (List.suffix_cons _ _)⟩
          · obtain ⟨s', hs', hsuf⟩ := h4 hv
            exact ⟨s', hs', hsuf.trans (List.suffix_cons _ _)⟩
        | some w =>
          by_cases hw0 : w ≤ 0
          · rw [gd_nonpos s w tail hp hw0] at heq
            obtain ⟨h1, h2, h3, h4⟩ := ih tail htail v rem heq
            refine ⟨h1, by simp; omega, fun hv => ?_, fun hv => ?_⟩
            · obtain ⟨s', c', hs', hc', hsuf⟩ := h3 hv
              exact ⟨s', c', hs', hc', hsuf.trans (List.suffix_cons _ _)⟩
            · obtain ⟨s', hs', hsuf⟩ := h4 hv
              exact ⟨s', hs', hsuf.trans (List.suffix_cons _ _)⟩
          · by_cases hw1 : 1000 < w
            · match tail with
              | [] =>
                rw [show getDimension [Inp.line s] = DimOutcome.exhausted by
                  simp only [getDimension, hp]; rw [if_neg hw0, if_pos hw1]] at heq
                exact absurd heq (by simp)
              | Inp.interrupt :: tail2 =>
                rw [show getDimension (Inp.line s :: Inp.interrupt :: tail2)
                    = DimOutcome.interrupted by
                  simp only [getDimension, hp]; rw [if_neg hw0, if_pos hw1]] at heq
                exact absurd heq (by simp)
              | Inp.line c :: tail2 =>
                by_cases hc : pyLower c = "y"
                · rw [gd_large_yes s w c tail2 hp hw1 hc] at heq
                  obtain ⟨hv, hrem⟩ : w = v ∧ tail2 = rem := by
                    constructor <;> cases heq <;> rfl
                  subst hv; subst hrem
                  refine ⟨by omega, by simp; omega, fun _ => ⟨s, c, hp, hc, List.suffix_rfl⟩,
                    fun hle => absurd hle (by omega)⟩
                · rw [gd_large_no s w c tail2 hp hw1 hc] at heq
                  have htail2 : tail2.length ≤ n := by simp at hlen; omega
                  obtain ⟨h1, h2, h3, h4⟩ := ih tail2 htail2 v rem heq
                  refine ⟨h1, by simp; omega, fun hv => ?_, fun hv => ?_⟩
                  · obtain ⟨s', c', hs', hc', hsuf⟩ := h3 hv
                    exact ⟨s', c', hs', hc',
                      (hsuf.trans (List.suffix_cons _ _)).trans (List.suffix_cons _ _)⟩
                  · obtain ⟨s', hs', hsuf⟩ := h4 hv
                    exact ⟨s', hs',
                      (hsuf.trans (List.suffix_cons _ _)).trans (List.suffix_cons _ _)⟩
            · rw [gd_accept_small s w tail hp (by omega) (by omega)] at heq
              obtain ⟨hv, hrem⟩ : w = v ∧ tail = rem := by
                constructor <;> cases heq <;> rfl
              subst hv; subst hrem
              refine ⟨by omega, by simp, fun hgt => absurd hgt (by omega),
                fun _ => ⟨s, hp, List.suffix_rfl⟩⟩
  intro script v rem heq
  exact main script.length script (Nat.le_refl _) v rem heq

theorem gui_final_line (script : List Inp) (w : Int) (r1 : List Inp) (h : Int)
    (r2 : List Inp) (fIn c : String) (r4 : List Inp)
    (h1 : getDimension script = DimOutcome.ok w r1)
    (h2 : getDimension r1 = DimOutcome.ok h r2)
    (h3 : r2 = Inp.line fIn :: Inp.line c :: r4) :
    getUserInput script =
      if pyLower c = "y" then PromptResult.values w h (chooseFilename w h fIn)
      else PromptResult.cancelled := by
  subst h3
  simp [getUserInput, h1, h2]

theorem gui_final_interrupt (script : List Inp) (w : Int) (r1 : List Inp) (h : Int)
    (r2 : List Inp) (fIn : String) (r4 : List Inp)
    (h1 : getDimension script = DimOutcome.ok w r1)
    (h2 : getDimension r1 = DimOutcome.ok h r2)
    (h3 : r2 = Inp.line fIn :: Inp.interrupt :: r4) :
    getUserInput script = PromptResult.cancelled := by
  subst h3
  simp [getUserInput, h1, h2]

/-! ### Claim theorems -/

/-- C1: for every width > 0 and height > 0 and any filename, the file the
Grid Writer produces has exactly `height` lines (chunks between the
`"\r\n"` terminators, no header or footer), each line splitting on `;` into
exactly `width` fields, and every field is the string `"0"`. -/
theorem grid_file_structure (width height : Int) (filename : String)
    (hw : 0 < width) (hh : 0 < height) :
    (createGridCsv width height filename none).written
      = some (targetName filename, fileContent width height) ∧
    (fileLines (fileContent width height)).length = height.toNat ∧
    ∀ l ∈ fileLines (fileContent width height),
      (splitSep ';' l).length = width.toNat ∧ ∀ f ∈ splitSep ';' l, f = ['0'] := by
  obtain ⟨n, hn⟩ : ∃ n, width.toNat = n + 1 := ⟨width.toNat - 1, by omega⟩
  have hcontent : fileLines (fileContent width height)
      = List.replicate height.toNat (joinFields (List.replicate (n + 1) "0")).data := by
    unfold fileLines fileContent gridData
    rw [hn, crlfSplit_content, List.dropLast_concat]
  refine ⟨rfl, ?_, ?_⟩
  · rw [hcontent, List.length_replicate]
  · intro l hl
    rw [hcontent] at hl
    rw [List.eq_of_mem_replicate hl, splitSep_row, hn]
    exact ⟨List.length_replicate _ _, fun f hf => List.eq_of_mem_replicate hf⟩

/-- Witness for C1 at width 3, height 2, filename `"test"`. -/
theorem grid_file_structure_witness :
    (createGridCsv 3 2 "test" none).written = some (targetName "test", fileContent 3 2) ∧
    (fileLines (fileContent 3 2)).length = 2 ∧
    ∀ l ∈ fileLines (fileContent 3 2),
      (splitSep ';' l).length = 3 ∧ ∀ f ∈ splitSep ';' l, f = ['0'] :=
  grid_file_structure 3 2 "test" (by decide) (by decide)

/-- C2 counterexample: for width 3, height 2, filename `"test"`, the written
bytes are NOT `"0;0;0\n0;0;0\n"` — `csv.writer`'s default dialect terminates
rows with `"\r\n"`, and `newline=''` writes it through untranslated. -/
theorem grid_3x2_lf_bytes_refuted :
    ¬ (createGridCsv 3 2 "test" none).written
      = some ("test.csv", "0;0;0\n0;0;0\n") := by
  decide

/-- C2 amended: width 3, height 2, filename `"test"` writes the file
`test.csv` whose exact bytes are `"0;0;0\r\n0;0;0\r\n"` (CRLF after each
row, two rows of three `0` fields). -/
theorem grid_3x2_crlf_bytes :
    (createGridCsv 3 2 "test" none).written
      = some ("test.csv", "0;0;0\r\n0;0;0\r\n") := by
  decide

/-- C3: when the file write raises, `create_grid_csv` catches it, prints one
message naming the target file (which contains the given filename) and the
cause, writes nothing, and returns `False` — the model is total, so the
failure never propagates. -/
theorem create_error_handled (width height : Int) (filename e : String) :
    (createGridCsv width height filename (some e)).success = false ∧
    (createGridCsv width height filename (some e)).written = none ∧
    (createGridCsv width height filename (some e)).output
      = ["Error creating " ++ targetName filename ++ ": " ++ e] ∧
    (targetName filename = filename ∨ targetName filename = filename ++ ".csv") := by
  refine ⟨rfl, rfl, rfl, ?_⟩
  unfold targetName
  split
  · exact Or.inl rfl
  · exact Or.inr rfl

/-- C5: `.csv` is appended exactly when missing, names already ending in
`.csv` pass through unchanged, and the target always ends in `.csv`. -/
theorem csv_suffix_enforced (filename : String) :
    (pyEndswith filename ".csv" = false → targetName filename = filename ++ ".csv") ∧
    (pyEndswith filename ".csv" = true → targetName filename = filename) ∧
    pyEndswith (targetName filename) ".csv" = true := by
  have happ : pyEndswith (filename ++ ".csv") ".csv" = true := by
    simp [pyEndswith, List.isSuffixOf_iff_suffix]
  refine ⟨fun h => ?_, fun h => ?_, ?_⟩
  · unfold targetName
    rw [if_neg (by simp [h])]
  · unfold targetName
    rw [if_pos h]
  · unfold targetName
    by_cases hcs : pyEndswith filename ".csv" = true
    · rw [if_pos hcs]; exact hcs
    · rw [if_neg hcs]; exact happ

/-- Witness for C5 on `"test"` (suffix appended) and `"a.csv"` (unchanged). -/
theorem csv_suffix_enforced_witness :
    targetName "test" = "test.csv" ∧ targetName "a.csv" = "a.csv" ∧
    pyEndswith (targetName "test") ".csv" = true :=
  ⟨(csv_suffix_enforced "test").1 (by decide),
   (csv_suffix_enforced "a.csv").2.1 (by decide),
   (csv_suffix_enforced "test").2.2⟩

/-- C9: the displayed estimate is exactly `2 * width * height` and, for
positive dimensions, strictly below the true byte size of the written file
(each row costs `2 * width + 1` bytes with its CRLF terminator). -/
theorem size_estimate_bound (width height : Int) (hw : 0 < width) (hh : 0 < height) :
    estimatedSize width height = 2 * (width * height) ∧
    estimatedSize width height < (fileByteSize width height : Int) := by
  constructor
  · unfold estimatedSize; ring
  · rw [fileByteSize_formula width height hw]
    have ha : (width.toNat : Int) = width := Int.toNat_of_nonneg (by omega)
    have hb : (height.toNat : Int) = height := Int.toNat_of_nonneg (by omega)
    unfold estimatedSize
    push_cast
    rw [ha, hb]
    nlinarith

/-- Witness for C9 at 3x2: estimate 12 bytes, actual 14 bytes. -/
theorem size_estimate_bound_witness :
    estimatedSize 3 2 = 12 ∧ estimatedSize 3 2 < (fileByteSize 3 2 : Int) :=
  ⟨by decide, (size_estimate_bound 3 2 (by decide) (by decide)).2⟩

/-- C4: when the response at the final create/cancel confirmation does not
lowercase to `y` — or a `KeyboardInterrupt` arrives there — `get_user_input`
returns the sentinel, the driver never invokes the writer, and no file is
written. -/
theorem decline_final_no_file (script : List Inp) (w : Int) (r1 : List Inp)
    (h : Int) (r2 : List Inp) (fIn : String) (x : Inp) (r4 : List Inp)
    (ioError : Option String)
    (h1 : getDimension script = DimOutcome.ok w r1)
    (h2 : getDimension r1 = DimOutcome.ok h r2)
    (h3 : r2 = Inp.line fIn :: x :: r4)
    (hx : x = Inp.interrupt ∨ ∃ c, x = Inp.line c ∧ ¬ pyLower c = "y") :
    getUserInput script = PromptResult.cancelled ∧ mainRun script ioError = none := by
  have hcancel : getUserInput script = PromptResult.cancelled := by
    rcases hx with hint | ⟨c, hc, hcy⟩
    · subst hint
      exact gui_final_interrupt script w r1 h r2 fIn r4 h1 h2 h3
    · subst hc
      rw [gui_final_line script w r1 h r2 fIn c r4 h1 h2 h3, if_neg hcy]
  exact ⟨hcancel, by simp [mainRun, hcancel]⟩

/-- Witness for C4: dimensions 3 and 2 accepted, filename `"f"`, final answer
`"n"` — cancelled, nothing written. -/
theorem decline_final_no_file_witness :
    getUserInput [Inp.line "3", Inp.line "2", Inp.line "f", Inp.line "n"]
      = PromptResult.cancelled ∧
    mainRun [Inp.line "3", Inp.line "2", Inp.line "f", Inp.line "n"] none = none :=
  decline_final_no_file _ 3 [Inp.line "2", Inp.line "f", Inp.line "n"] 2
    [Inp.line "f", Inp.line "n"] "f" (Inp.line "n") [] none (by decide) (by decide) rfl
    (Or.inr ⟨"n", rfl, by decide⟩)

/-- C6: a value over 1000 is only ever accepted right after a confirmation
lowercasing to `y`; declining the confirmation resumes the dimension loop on
the remaining input (no cancellation); values in 1..1000 are accepted
immediately, consuming no confirmation. -/
theorem large_dimension_confirmation :
    (∀ (script : List Inp) (v : Int) (rem : List Inp),
      getDimension script = DimOutcome.ok v rem → 1000 < v →
      ∃ s c, pyint s = some v ∧ pyLower c = "y" ∧
        (Inp.line s :: Inp.line c :: rem) <:+ script) ∧
    (∀ (s : String) (v : Int) (c : String) (rest : List Inp),
      pyint s = some v → 1000 < v → ¬ pyLower c = "y" →
      getDimension (Inp.line s :: Inp.line c :: rest) = getDimension rest) ∧
    (∀ (s : String) (v : Int) (rest : List Inp),
      pyint s = some v → 0 < v → v ≤ 1000 →
      getDimension (Inp.line s :: rest) = DimOutcome.ok v rest) :=
  ⟨fun script v rem heq hv => (gd_ok_inv script v rem heq).2.2.1 hv,
   fun s v c rest hp h1 hc => gd_large_no s v c rest hp h1 hc,
   fun s v rest hp h0 h1 => gd_accept_small s v rest hp h0 h1⟩

/-- Witness for C6: 2000 accepted after `"Y"`; 1001 declined with `"n"`
resumes the loop; 5 accepted directly. -/
theorem large_dimension_confirmation_witness :
    (∃ s c, pyint s = some 2000 ∧ pyLower c = "y" ∧
      (Inp.line s :: Inp.line c :: ([] : List Inp))
        <:+ [Inp.line "2000", Inp.line "Y"]) ∧
    getDimension [Inp.line "1001", Inp.line "n", Inp.line "7"]
      = getDimension [Inp.line "7"] ∧
    getDimension [Inp.line "5", Inp.line "x"] = DimOutcome.ok 5 [Inp.line "x"] :=
  ⟨large_dimension_confirmation.1 [Inp.line "2000", Inp.line "Y"] 2000 []
      (by decide) (by decide),
   large_dimension_confirmation.2.1 "1001" 1001 "n" [Inp.line "7"]
      (by decide) (by decide) (by decide),
   large_dimension_confirmation.2.2 "5" 5 [Inp.line "x"]
      (by decide) (by decide) (by decide)⟩

/-- C7: input that does not parse as an integer leaves the dimension loop at
the same prompt (the loop continues on the remaining input; the model is
total, so no error escapes), and an accepted value is always positive. -/
theorem invalid_dimension_reprompt :
    (∀ (s : String) (rest : List Inp), pyint s = none →
      getDimension (Inp.line s :: rest) = getDimension rest) ∧
    (∀ (script : List Inp) (v : Int) (rem : List Inp),
      getDimension script = DimOutcome.ok v rem → 0 < v) :=
  ⟨fun s rest h => gd_parse_fail s rest h,
   fun script v rem heq => (gd_ok_inv script v rem heq).1⟩

/-- Witness for C7: `"abc"` re-prompts; the accepted `4` is positive. -/
theorem invalid_dimension_reprompt_witness :
    getDimension [Inp.line "abc", Inp.line "4"] = getDimension [Inp.line "4"] ∧
    (0 : Int) < 4 :=
  ⟨invalid_dimension_reprompt.1 "abc" [Inp.line "4"] (by decide),
   invalid_dimension_reprompt.2 [Inp.line "4"] 4 [] (by decide)⟩

/-- C8 counterexample: the non-blank response `" test "` is not used
verbatim — the filename step strips it to `"test"`. -/
theorem filename_not_verbatim :
    chooseFilename 5 5 " test " = "test" ∧ (" test " : String) ≠ "test" := by
  decide

/-- C8 amended: the response is stripped of leading and trailing whitespace;
a response that is blank after stripping yields the default
`grid_{width}x{height}.csv`, and any other response is used in its stripped
form. -/
theorem filename_stripping (width height : Int) (resp : String) :
    (pyStrip resp = "" →
      chooseFilename width height resp = defaultFilename width height) ∧
    (¬ pyStrip resp = "" → chooseFilename width height resp = pyStrip resp) ∧
    defaultFilename width height
      = "grid_" ++ toString width ++ "x" ++ toString height ++ ".csv" := by
  refine ⟨fun h => ?_, fun h => ?_, rfl⟩
  · simp [chooseFilename, h]
  · simp [chooseFilename, h]

/-- Witness for C8: whitespace-only response gives the default; `" out "` is
used stripped. -/
theorem filename_stripping_witness :
    chooseFilename 5 5 "  " = defaultFilename 5 5 ∧
    chooseFilename 5 5 " out " = pyStrip " out " :=
  ⟨(filename_stripping 5 5 "  ").1 (by decide),
   (filename_stripping 5 5 " out ").2.1 (by decide)⟩

/-- C10: at the large-grid prompt and at the final prompt a response is
affirmative exactly when it lowercases to `"y"`; `"Y"` is affirmative while
`"yes"`, `"Y es"` and `""` are not. -/
theorem affirmative_iff_lower_y :
    (pyLower "Y" = "y" ∧ ¬ pyLower "yes" = "y" ∧ ¬ pyLower "Y es" = "y" ∧
      ¬ pyLower "" = "y") ∧
    (∀ (s : String) (v : Int) (c : String) (rest : List Inp),
      pyint s = some v → 1000 < v →
      (getDimension (Inp.line s :: Inp.line c :: rest) = DimOutcome.ok v rest ↔
        pyLower c = "y")) ∧
    (∀ (script : List Inp) (w : Int) (r1 : List Inp) (h : Int) (r2 : List Inp)
      (fIn c : String) (r4 : List Inp),
      getDimension script = DimOutcome.ok w r1 →
      getDimension r1 = DimOutcome.ok h r2 →
      r2 = Inp.line fIn :: Inp.line c :: r4 →
      ((∃ fname, getUserInput script = PromptResult.values w h fname) ↔
        pyLower c = "y")) := by
  refine ⟨by decide, fun s v c rest hp hv => ?_,
    fun script w r1 h r2 fIn c r4 h1 h2 h3 => ?_⟩
  · constructor
    · intro heq
      by_contra hc
      rw [gd_large_no s v c rest hp hv hc] at heq
      have := (gd_ok_inv rest v rest heq).2.1
      omega
    · intro hc
      exact gd_large_yes s v c rest hp hv hc
  · rw [gui_final_line script w r1 h r2 fIn c r4 h1 h2 h3]
    constructor
    · rintro ⟨fname, hf⟩
      by_contra hc
      rw [if_neg hc] at hf
      exact absurd hf (by simp)
    · intro hc
      rw [if_pos hc]
      exact ⟨chooseFilename w h fIn, rfl⟩

/-- Witness for C10: `"Y"` confirms a 1001-wide grid; `"Y"` confirms
creation at the final prompt. -/
theorem affirmative_iff_lower_y_witness :
    getDimension [Inp.line "1001", Inp.line "Y"] = DimOutcome.ok 1001 [] ∧
    (∃ fname, getUserInput [Inp.line "1", Inp.line "2", Inp.line "f", Inp.line "Y"]
      = PromptResult.values 1 2 fname) :=
  ⟨(affirmative_iff_lower_y.2.1 "1001" 1001 "Y" [] (by decide) (by decide)).2
      (by decide),
   (affirmative_iff_lower_y.2.2 [Inp.line "1", Inp.line "2", Inp.line "f", Inp.line "Y"]
      1 [Inp.line "2", Inp.line "f", Inp.line "Y"] 2 [Inp.line "f", Inp.line "Y"]
      "f" "Y" [] (by decide) (by decide) rfl).2 (by decide)⟩
